import Mathlib

/-!
# Verification of the UniversalPWA backend-detection core

Shallow embedding of `packages/sdk-python/src/universal_pwa` (the backend
integrations for Django and Flask, the version extractor, the service-worker
config tables, the validation reports, and the client/transport error
wrapping), together with proofs of the specified properties.

The filesystem is modelled as a record of pure query functions; a failing
read (`FileNotFoundError`, decode error, …) is modelled by `readFile`
returning `none`, matching the Python code where `_read_file` is the only
fallible primitive used by the detection and validation routines
(`Path.exists` / `Path.is_dir` swallow `OSError` and return `False`).
-/

namespace UniversalPwa

/-- Abstract project filesystem, as seen through
`BaseBackendIntegration._file_exists` / `_dir_exists` / `_read_file`
(base.py, lines 125-136).  `readFile p = none` models the read raising. -/
structure FS where
  fileExists : String → Bool
  dirExists : String → Bool
  readFile : String → Option String

/-- `ConfidenceLevel` enum from backends/types.py. -/
inductive ConfidenceLevel where
  | low
  | medium
  | high
deriving DecidableEq, Repr

/-- Numeric rank of a confidence level (LOW < MEDIUM < HIGH, spec §2). -/
def confRank : ConfidenceLevel → Nat
  | .low => 0
  | .medium => 1
  | .high => 2

/-- `BackendDetectionResult` TypedDict from backends/types.py. -/
structure BackendDetectionResult where
  detected : Bool
  confidence : ConfidenceLevel
  indicators : List String
  version : Option String
deriving DecidableEq, Repr

/-- The repeated escalation idiom
`if confidence == ConfidenceLevel.MEDIUM: confidence = ConfidenceLevel.HIGH`
used by every corroborating check in django.py / flask.py. -/
def raiseIfMedium (c : ConfidenceLevel) : ConfidenceLevel :=
  if c = .medium then .high else c

/-- Bool-valued prefix test on character lists (explicit form of
`List.isPrefixOf`, kept self-contained for reduction control). -/
def isPrefixL : List Char → List Char → Bool
  | [], _ => true
  | _ :: _, [] => false
  | a :: as, b :: bs => decide (a = b) && isPrefixL as bs

/-- Substring containment: Python's `needle in haystack`. -/
def containsSub (needle : List Char) : List Char → Bool
  | [] => isPrefixL needle []
  | s@(_ :: rest) => isPrefixL needle s || containsSub needle rest

/-- Python `str.lower()` (ASCII case folding suffices for the tokens used). -/
def lowerL (s : List Char) : List Char := s.map Char.toLower

/-! ## Version extractor

`DjangoIntegration._extract_django_version_from_requirements` (django.py,
lines 108-118) runs `re.search` with pattern
`Django[>=<~!]*(\d+)(?:\.(\d+))?(?:\.(\d+))?` and flag `IGNORECASE`.
The pattern is backtracking-free (the operator class contains no digits and
each optional group starts with a literal dot), so greedy left-to-right
matching at each start position is exact. -/

/-- A character of the regex operator class `[>=<~!]`. -/
def isOpChar (c : Char) : Bool :=
  c = '>' || c = '=' || c = '<' || c = '~' || c = '!'

/-- The three captured groups of one successful regex match:
major (group 1, mandatory) and optional minor/patch (groups 2, 3). -/
structure VersionGroups where
  major : String
  minor : Option String
  patch : Option String
deriving DecidableEq, Repr

/-- Matches the framework-name literal case-insensitively at the head of the
text (the `re.IGNORECASE` flag applied to the literal part of the pattern);
returns the remaining text. -/
def matchNameCI : List Char → List Char → Option (List Char)
  | [], rest => some rest
  | _ :: _, [] => none
  | n :: ns, c :: cs => if c.toLower = n.toLower then matchNameCI ns cs else none

/-- Attempts the whole pattern anchored at the head of `s`:
name, then `[>=<~!]*`, then `(\d+)(?:\.(\d+))?(?:\.(\d+))?`. -/
def matchVersionAt (name : List Char) (s : List Char) : Option VersionGroups :=
  match matchNameCI name s with
  | none => none
  | some rest =>
    let rest := rest.dropWhile isOpChar
    let ds := rest.takeWhile Char.isDigit
    let rest := rest.dropWhile Char.isDigit
    if ds.isEmpty then none
    else
      match rest with
      | '.' :: r2 =>
        let ms := r2.takeWhile Char.isDigit
        let r3 := r2.dropWhile Char.isDigit
        if ms.isEmpty then some ⟨ds.asString, none, none⟩
        else
          match r3 with
          | '.' :: r4 =>
            let ps := r4.takeWhile Char.isDigit
            if ps.isEmpty then some ⟨ds.asString, some ms.asString, none⟩
            else some ⟨ds.asString, some ms.asString, some ps.asString⟩
          | _ => some ⟨ds.asString, some ms.asString, none⟩
      | _ => some ⟨ds.asString, none, none⟩

/-- `re.search`: try every start position left to right, first hit wins. -/
def searchVersion (name : List Char) : List Char → Option VersionGroups
  | [] => matchVersionAt name []
  | s@(_ :: rest) =>
    match matchVersionAt name s with
    | some r => some r
    | none => searchVersion name rest

/-- `f"{major}.{minor}.{patch}"` with `match.group(i) or "0"`
(django.py, lines 114-117). -/
def formatVersion (g : VersionGroups) : String :=
  g.major ++ "." ++ g.minor.getD "0" ++ "." ++ g.patch.getD "0"

/-- `DjangoIntegration._extract_django_version_from_requirements`
(django.py, lines 108-118). -/
def extract_django_version_from_requirements (content : String) : Option String :=
  (searchVersion "Django".data content.data).map formatVersion

/-! ## `DjangoIntegration.detect` (django.py, lines 47-106)

The method body is straight-line; one definition below per mutation of
`indicators` / `confidence` / `version`, indexed by the statement order.
A `try: content = read; if token: … except: pass` block acts exactly when
the file exists, the read succeeds and the token test passes, since the
read is the only fallible operation inside the `try`. -/

/-- Check 1, django.py line 62: `self._file_exists("manage.py")`. -/
def djangoSig1 (fs : FS) : Bool := fs.fileExists "manage.py"

/-- `confidence` after the manage.py check (django.py line 64 assigns
`MEDIUM` unconditionally; `confidence` is still the initial `LOW` there). -/
def djangoC1 (fs : FS) : ConfidenceLevel :=
  if djangoSig1 fs then .medium else .low

/-- `indicators` after the manage.py check (django.py line 63). -/
def djangoI1 (fs : FS) : List String :=
  if djangoSig1 fs then ["manage.py"] else []

/-- Check 2, django.py line 67:
`self._file_exists("settings.py") or self._dir_exists("settings")`. -/
def djangoSig2 (fs : FS) : Bool :=
  fs.fileExists "settings.py" || fs.dirExists "settings"

/-- `confidence` after the settings check (django.py lines 69-70). -/
def djangoC2 (fs : FS) : ConfidenceLevel :=
  if djangoSig2 fs then raiseIfMedium (djangoC1 fs) else djangoC1 fs

/-- `indicators` after the settings check (django.py line 68). -/
def djangoI2 (fs : FS) : List String :=
  if djangoSig2 fs then djangoI1 fs ++ ["settings.py or settings/"] else djangoI1 fs

/-- Check 3, django.py line 73: `self._file_exists("urls.py")`. -/
def djangoSig3 (fs : FS) : Bool := fs.fileExists "urls.py"

/-- `confidence` after the urls.py check (django.py lines 75-76). -/
def djangoC3 (fs : FS) : ConfidenceLevel :=
  if djangoSig3 fs then raiseIfMedium (djangoC2 fs) else djangoC2 fs

/-- `indicators` after the urls.py check (django.py line 74). -/
def djangoI3 (fs : FS) : List String :=
  if djangoSig3 fs then djangoI2 fs ++ ["urls.py"] else djangoI2 fs

/-- `'Django' in content or 'django' in content` (django.py line 82). -/
def hasDjangoToken (content : String) : Bool :=
  containsSub "Django".data content.data || containsSub "django".data content.data

/-- Check 4, django.py lines 79-88: requirements.txt exists, reads
successfully, and contains the Django token. -/
def djangoSig4 (fs : FS) : Bool :=
  fs.fileExists "requirements.txt" &&
    match fs.readFile "requirements.txt" with
    | some content => hasDjangoToken content
    | none => false

/-- `confidence` after the requirements.txt check (django.py lines 85-86). -/
def djangoC4 (fs : FS) : ConfidenceLevel :=
  if djangoSig4 fs then raiseIfMedium (djangoC3 fs) else djangoC3 fs

/-- `indicators` after the requirements.txt check (django.py line 83). -/
def djangoI4 (fs : FS) : List String :=
  if djangoSig4 fs then djangoI3 fs ++ ["requirements.txt: Django"] else djangoI3 fs

/-- `version` after the requirements.txt check (django.py line 84); the only
assignment to `version` in the method. -/
def djangoV4 (fs : FS) : Option String :=
  if djangoSig4 fs then
    (fs.readFile "requirements.txt").bind extract_django_version_from_requirements
  else none

/-- Check 5, django.py lines 91-99: pyproject.toml exists, reads
successfully, and `"django" in content.lower()`. -/
def djangoSig5 (fs : FS) : Bool :=
  fs.fileExists "pyproject.toml" &&
    match fs.readFile "pyproject.toml" with
    | some content => containsSub "django".data (lowerL content.data)
    | none => false

/-- `confidence` after the pyproject.toml check (django.py lines 96-97). -/
def djangoC5 (fs : FS) : ConfidenceLevel :=
  if djangoSig5 fs then raiseIfMedium (djangoC4 fs) else djangoC4 fs

/-- `indicators` after the pyproject.toml check (django.py line 95). -/
def djangoI5 (fs : FS) : List String :=
  if djangoSig5 fs then djangoI4 fs ++ ["pyproject.toml: django"] else djangoI4 fs

/-- `DjangoIntegration.detect` (django.py lines 47-106); result dict of
lines 101-106 with `detected = len(indicators) > 0`. -/
def djangoDetect (fs : FS) : BackendDetectionResult :=
  { detected := decide (0 < (djangoI5 fs).length)
    confidence := djangoC5 fs
    indicators := djangoI5 fs
    version := djangoV4 fs }

/-- Successive values of the `confidence` variable during one
`DjangoIntegration.detect` run, in statement order (initial `LOW`,
then after each of the five checks). -/
def djangoConfidenceTrace (fs : FS) : List ConfidenceLevel :=
  [.low, djangoC1 fs, djangoC2 fs, djangoC3 fs, djangoC4 fs, djangoC5 fs]

/-! ## `FlaskIntegration.detect` (flask.py, lines 40-79) -/

/-- Check 1, flask.py line 53:
`self._file_exists("app.py") or self._file_exists("application.py")`. -/
def flaskSig1 (fs : FS) : Bool :=
  fs.fileExists "app.py" || fs.fileExists "application.py"

/-- `confidence` after the app.py check (flask.py line 55 assigns `MEDIUM`
unconditionally; `confidence` is still the initial `LOW` there). -/
def flaskC1 (fs : FS) : ConfidenceLevel :=
  if flaskSig1 fs then .medium else .low

/-- `indicators` after the app.py check (flask.py line 54). -/
def flaskI1 (fs : FS) : List String :=
  if flaskSig1 fs then ["app.py or application.py"] else []

/-- `'Flask' in content or 'flask' in content` (flask.py line 61). -/
def hasFlaskToken (content : String) : Bool :=
  containsSub "Flask".data content.data || containsSub "flask".data content.data

/-- Check 2, flask.py lines 58-66: requirements.txt exists, reads
successfully, and contains the Flask token. -/
def flaskSig2 (fs : FS) : Bool :=
  fs.fileExists "requirements.txt" &&
    match fs.readFile "requirements.txt" with
    | some content => hasFlaskToken content
    | none => false

/-- `confidence` after the requirements.txt check (flask.py lines 63-64). -/
def flaskC2 (fs : FS) : ConfidenceLevel :=
  if flaskSig2 fs then raiseIfMedium (flaskC1 fs) else flaskC1 fs

/-- `indicators` after the requirements.txt check (flask.py line 62). -/
def flaskI2 (fs : FS) : List String :=
  if flaskSig2 fs then flaskI1 fs ++ ["requirements.txt: Flask"] else flaskI1 fs

/-- Check 3, flask.py line 69:
`self._dir_exists("templates") or self._dir_exists("static")`. -/
def flaskSig3 (fs : FS) : Bool :=
  fs.dirExists "templates" || fs.dirExists "static"

/-- `confidence` after the structure check (flask.py lines 71-72). -/
def flaskC3 (fs : FS) : ConfidenceLevel :=
  if flaskSig3 fs then raiseIfMedium (flaskC2 fs) else flaskC2 fs

/-- `indicators` after the structure check (flask.py line 70). -/
def flaskI3 (fs : FS) : List String :=
  if flaskSig3 fs then flaskI2 fs ++ ["Flask structure (templates/ or static/)"] else flaskI2 fs

/-- `FlaskIntegration.detect` (flask.py lines 40-79); the result dict of
lines 74-79 always carries `"version": None`. -/
def flaskDetect (fs : FS) : BackendDetectionResult :=
  { detected := decide (0 < (flaskI3 fs).length)
    confidence := flaskC3 fs
    indicators := flaskI3 fs
    version := none }

/-- Successive values of the `confidence` variable during one
`FlaskIntegration.detect` run, in statement order. -/
def flaskConfidenceTrace (fs : FS) : List ConfidenceLevel :=
  [.low, flaskC1 fs, flaskC2 fs, flaskC3 fs]

/-! ## Validation reports (`validate_setup`) -/

/-- `ValidationResult` TypedDict from backends/types.py. -/
structure ValidationResult where
  isValid : Bool
  errors : List String
  warnings : List String
  suggestions : List String
deriving DecidableEq, Repr

/-- `DjangoIntegration.validate_setup` (django.py, lines 195-232).
The `try` block around the settings.py read contributes its warning and
suggestion only when the read succeeds; a raising read leaves both lists
unchanged (`except Exception: pass`). -/
def djangoValidateSetup (fs : FS) : ValidationResult :=
  let errors : List String :=
    if !fs.fileExists "settings.py" && !fs.dirExists "settings" then
      ["Django settings.py or settings/ directory not found"]
    else []
  let settingsFindings : List String × List String :=
    if fs.fileExists "settings.py" then
      match fs.readFile "settings.py" with
      | some content =>
        ((if !containsSub "STATIC_URL".data content.data then
            ["STATIC_URL not found in settings.py"] else []),
         (if !containsSub "STATIC_ROOT".data content.data then
            ["Consider setting STATIC_ROOT for production"] else []))
      | none => ([], [])
    else ([], [])
  let warnings : List String :=
    settingsFindings.1 ++
      (if !fs.fileExists "urls.py" then ["urls.py not found in project root"] else [])
  { isValid := decide (errors.length = 0)
    errors := errors
    warnings := warnings
    suggestions := settingsFindings.2 }

/-- `FlaskIntegration.validate_setup` (flask.py, lines 132-147): `errors`
is never appended to; a missing app entry file only adds a warning. -/
def flaskValidateSetup (fs : FS) : ValidationResult :=
  let errors : List String := []
  let warnings : List String :=
    if !fs.fileExists "app.py" && !fs.fileExists "application.py" then
      ["app.py or application.py not found"]
    else []
  { isValid := decide (errors.length = 0)
    errors := errors
    warnings := warnings
    suggestions := [] }

/-! ## Service-worker configuration tables -/

/-- The `expiration` option of a runtime caching rule. -/
structure CacheExpiration where
  maxEntries : Nat
  maxAgeSeconds : Nat
deriving DecidableEq, Repr

/-- The `options` dict of a runtime caching rule. -/
structure RuleOptions where
  cacheName : String
  networkTimeoutSeconds : Option Nat
  expiration : Option CacheExpiration
deriving DecidableEq, Repr

/-- One entry of the `runtime_caching` list. -/
structure RuntimeCachingRule where
  urlPattern : String
  handler : String
  options : RuleOptions
deriving DecidableEq, Repr

/-- `ServiceWorkerConfig` TypedDict from backends/types.py. -/
structure ServiceWorkerConfig where
  precache : List String
  runtime_caching : List RuntimeCachingRule
  skip_waiting : Bool
  clients_claim : Bool
  navigation_preload : Bool
deriving DecidableEq, Repr

/-- `DjangoIntegration.generate_service_worker_config` (django.py, lines
120-179).  The method receives `self` — which carries the project path and
filesystem access — but its body references neither; the two are kept as
(ignored) parameters so that independence from them is statable. -/
def django_generate_service_worker_config (_fs : FS) (_projectPath : String) :
    ServiceWorkerConfig :=
  { precache := []
    runtime_caching :=
      [ { urlPattern := "/static/**"
          handler := "CacheFirst"
          options :=
            { cacheName := "django-static-cache"
              networkTimeoutSeconds := none
              expiration := some { maxEntries := 100, maxAgeSeconds := 86400 * 30 } } }
      , { urlPattern := "/media/**"
          handler := "CacheFirst"
          options :=
            { cacheName := "django-media-cache"
              networkTimeoutSeconds := none
              expiration := some { maxEntries := 50, maxAgeSeconds := 86400 * 7 } } }
      , { urlPattern := "/api/**"
          handler := "NetworkFirst"
          options :=
            { cacheName := "django-api-cache"
              networkTimeoutSeconds := some 3
              expiration := some { maxEntries := 50, maxAgeSeconds := 300 } } }
      , { urlPattern := "/admin/**"
          handler := "NetworkOnly"
          options :=
            { cacheName := "django-admin-cache"
              networkTimeoutSeconds := none
              expiration := none } } ]
    skip_waiting := true
    clients_claim := true
    navigation_preload := false }

/-- `FlaskIntegration.generate_service_worker_config` (flask.py, lines
81-116), same parameter convention as the Django variant. -/
def flask_generate_service_worker_config (_fs : FS) (_projectPath : String) :
    ServiceWorkerConfig :=
  { precache := []
    runtime_caching :=
      [ { urlPattern := "/static/**"
          handler := "CacheFirst"
          options :=
            { cacheName := "flask-static-cache"
              networkTimeoutSeconds := none
              expiration := some { maxEntries := 100, maxAgeSeconds := 86400 * 30 } } }
      , { urlPattern := "/api/**"
          handler := "NetworkFirst"
          options :=
            { cacheName := "flask-api-cache"
              networkTimeoutSeconds := some 3
              expiration := some { maxEntries := 50, maxAgeSeconds := 300 } } } ]
    skip_waiting := true
    clients_claim := true
    navigation_preload := false }

/-! ## Glob matching and first-match rule resolution

Modelled from the spec: the repository only authors the `url_pattern` glob
strings; the client-side interception layer that consumes them is external.
Spec §3: "`url_pattern`: glob string … a client matches the first rule whose
pattern matches a request path", with `**` crossing path-segment boundaries
and `*` confined to one segment. -/

/-- Modelled from the spec: glob matching for the rule patterns.  `**`
matches any character sequence (it may consume any number of leading
characters of the path, including `/`), `*` any sequence within one path
segment (no `/`), every other character only itself.  Recursion is
structural on the pattern: a star tries every admissible number of consumed
characters. -/
def globMatch : List Char → List Char → Bool
  | [], s => s.isEmpty
  | c :: p, s =>
    if c = '*' then
      match p with
      | '*' :: p' => (List.range (s.length + 1)).any fun n => globMatch p' (s.drop n)
      | q => (List.range ((s.takeWhile fun d => decide (d ≠ '/')).length + 1)).any
          fun n => globMatch q (s.drop n)
    else
      match s with
      | [] => false
      | d :: s' => decide (c = d) && globMatch p s'

/-- Modelled from the spec: "a client matches the first rule whose pattern
matches a request path" (spec §3). -/
def firstMatchingRule (rules : List RuntimeCachingRule) (path : String) :
    Option RuntimeCachingRule :=
  rules.find? (fun r => globMatch r.urlPattern.data path.data)

/-! ## Transport and client error wrapping

`HttpClient.post` (http.py, lines 45-81) and the three operations of
`UniversalPwaClient` (client.py, lines 51-121).  The outcome of
`self.session.post(...)` — the external `requests` library, after its
internal retries — is modelled as an inductive: either an HTTP response
(status, body text, optionally JSON-decodable into `ρ`) or one of the
exception classes `post` catches. -/

/-- Outcome of `requests.Session.post`, as discriminated by http.py's
`except` clauses.  `json? = none` models `response.json()` raising. -/
inductive SessionOutcome (ρ : Type) where
  | response (status : Nat) (body : String) (json? : Option ρ)
  | timeoutErr (msg : String)
  | connectionErr (msg : String)
  | otherErr (msg : String)
deriving DecidableEq, Repr

/-- The SDK exception taxonomy (exceptions.py) restricted to the kinds the
client code can raise on the scan/generate/validate paths. -/
inductive PwaException where
  | timeoutException (msg : String)
  | apiUnreachableException (msg : String)
  | httpException (msg : String)
  | scanException (msg : String)
  | generationException (msg : String)
  | validationException (msg : String)
deriving DecidableEq, Repr

/-- `str(e)` for a raised exception: the message it was constructed with. -/
def PwaException.message : PwaException → String
  | .timeoutException m => m
  | .apiUnreachableException m => m
  | .httpException m => m
  | .scanException m => m
  | .generationException m => m
  | .validationException m => m

/-- `HttpClient.post` (http.py, lines 45-81): `raise_for_status` raises
`requests.exceptions.HTTPError` exactly for status codes 400-599, caught and
rewrapped as `HttpException`; a failing `response.json()` is caught by the
final generic `except` clause. -/
def httpPost {ρ : Type} (timeout : Nat) (url : String) (o : SessionOutcome ρ) :
    Except PwaException ρ :=
  match o with
  | .response status body json? =>
    if 400 ≤ status ∧ status < 600 then
      .error (.httpException ("HTTP " ++ toString status ++ ": " ++ body))
    else
      match json? with
      | some j => .ok j
      | none => .error (.httpException "HTTP request failed: response body is not JSON")
  | .timeoutErr m =>
    .error (.timeoutException
      ("API request timed out after " ++ toString timeout ++ "s: " ++ m))
  | .connectionErr m =>
    .error (.apiUnreachableException ("Cannot reach API at " ++ url ++ ": " ++ m))
  | .otherErr m => .error (.httpException ("HTTP request failed: " ++ m))

/-- `o` is one of the transport failures: the service did not deliver a
successful (2xx/3xx) response with a decodable body. -/
def SessionOutcome.isTransportFailure {ρ : Type} : SessionOutcome ρ → Bool
  | .response status _ json? => decide (400 ≤ status ∧ status < 600) || json?.isNone
  | .timeoutErr _ => true
  | .connectionErr _ => true
  | .otherErr _ => true

/-- `UniversalPwaClient.scan` (client.py, lines 51-71): the whole body sits
in `try: … except Exception as e: raise ScanException(f"Failed to scan
project: {e}")`.  `parse` models `ScanResult(**response)`, whose pydantic
validation failure is also caught by the same `except`. -/
def clientScan {ρ σ : Type} (parse : ρ → Except String σ) (timeout : Nat)
    (o : SessionOutcome ρ) : Except PwaException σ :=
  match httpPost timeout "/api/scan" o with
  | .ok resp =>
    match parse resp with
    | .ok r => .ok r
    | .error m => .error (.scanException ("Failed to scan project: " ++ m))
  | .error e => .error (.scanException ("Failed to scan project: " ++ e.message))

/-- `UniversalPwaClient.generate` (client.py, lines 73-100), wrapping every
failure in `GenerationException(f"Failed to generate PWA: {e}")`. -/
def clientGenerate {ρ σ : Type} (parse : ρ → Except String σ) (timeout : Nat)
    (o : SessionOutcome ρ) : Except PwaException σ :=
  match httpPost timeout "/api/generate" o with
  | .ok resp =>
    match parse resp with
    | .ok r => .ok r
    | .error m => .error (.generationException ("Failed to generate PWA: " ++ m))
  | .error e => .error (.generationException ("Failed to generate PWA: " ++ e.message))

/-- `UniversalPwaClient.validate` (client.py, lines 102-121), wrapping
every failure in `ValidationException(f"Failed to validate project: {e}")`. -/
def clientValidate {ρ σ : Type} (parse : ρ → Except String σ) (timeout : Nat)
    (o : SessionOutcome ρ) : Except PwaException σ :=
  match httpPost timeout "/api/validate" o with
  | .ok resp =>
    match parse resp with
    | .ok r => .ok r
    | .error m => .error (.validationException ("Failed to validate project: " ++ m))
  | .error e => .error (.validationException ("Failed to validate project: " ++ e.message))

/-! ## Helper lemmas -/

/-- LOW ≤ MEDIUM ≤ HIGH (spec §2: "3-level ordered scale"). -/
def confLe (a b : ConfidenceLevel) : Prop := confRank a ≤ confRank b

/-- One escalation step: confidence does not decrease, and HIGH is entered
only from exactly MEDIUM. -/
def escalation (a b : ConfidenceLevel) : Prop :=
  confLe a b ∧ (b = .high → a ≠ .high → a = .medium)

theorem raiseIfMedium_low : raiseIfMedium .low = .low := rfl

theorem escalation_step (c : ConfidenceLevel) (b : Bool) :
    escalation c (if b then raiseIfMedium c else c) := by
  cases b <;> cases c <;> simp [escalation, confLe, confRank, raiseIfMedium]

theorem escalation_first (b : Bool) :
    escalation .low (if b then .medium else .low) := by
  cases b <;> simp [escalation, confLe, confRank]

theorem step_low (b : Bool) (c : ConfidenceLevel) (hc : c = .low) :
    (if b then raiseIfMedium c else c) = .low := by
  subst hc; cases b <;> simp [raiseIfMedium]

theorem length_le_append_step (l : List String) (lbl : String) (b : Bool) :
    l.length ≤ (if b then l ++ [lbl] else l).length := by
  cases b <;> simp

/-! ## C1 -/

/-- C1: in every Django or Flask detection run, the confidence variable
starts at LOW, never decreases, and becomes HIGH only at a step where it is
already exactly MEDIUM; the returned confidence is the last trace entry.
When the primary marker is absent, the returned confidence is LOW even if a
corroborating signal contributed an indicator. -/
theorem detect_confidence_monotone_escalation (fs : FS) :
    (djangoConfidenceTrace fs).head? = some .low ∧
    List.Chain' escalation (djangoConfidenceTrace fs) ∧
    (djangoConfidenceTrace fs).getLast? = some (djangoDetect fs).confidence ∧
    (flaskConfidenceTrace fs).head? = some .low ∧
    List.Chain' escalation (flaskConfidenceTrace fs) ∧
    (flaskConfidenceTrace fs).getLast? = some (flaskDetect fs).confidence ∧
    (djangoSig1 fs = false →
      (djangoSig2 fs || djangoSig3 fs || djangoSig4 fs || djangoSig5 fs) = true →
      (djangoDetect fs).confidence = .low ∧ (djangoDetect fs).indicators ≠ []) ∧
    (flaskSig1 fs = false → (flaskSig2 fs || flaskSig3 fs) = true →
      (flaskDetect fs).confidence = .low ∧ (flaskDetect fs).indicators ≠ []) := by
  refine ⟨rfl, ?_, rfl, rfl, ?_, rfl, ?_, ?_⟩
  · simp only [djangoConfidenceTrace, List.chain'_cons, List.chain'_singleton, and_true]
    exact ⟨escalation_first (djangoSig1 fs), escalation_step _ (djangoSig2 fs),
      escalation_step _ (djangoSig3 fs), escalation_step _ (djangoSig4 fs),
      escalation_step _ (djangoSig5 fs)⟩
  · simp only [flaskConfidenceTrace, List.chain'_cons, List.chain'_singleton, and_true]
    exact ⟨escalation_first (flaskSig1 fs), escalation_step _ (flaskSig2 fs),
      escalation_step _ (flaskSig3 fs)⟩
  · intro hprim hcor
    have h1 : djangoC1 fs = .low := by simp [djangoC1, hprim]
    have h5 : djangoC5 fs = .low :=
      step_low _ _ (step_low _ _ (step_low _ _ (step_low _ _ h1)))
    have hi1 : djangoI1 fs = [] := by simp [djangoI1, hprim]
    have hlen : 1 ≤ (djangoI5 fs).length := by
      rcases Bool.or_eq_true_iff.mp hcor with h | h5'
      · rcases Bool.or_eq_true_iff.mp h with h | h4
        · rcases Bool.or_eq_true_iff.mp h with h2 | h3
          · have : 1 ≤ (djangoI2 fs).length := by simp [djangoI2, h2]
            calc 1 ≤ (djangoI2 fs).length := this
              _ ≤ (djangoI3 fs).length := length_le_append_step _ _ _
              _ ≤ (djangoI4 fs).length := length_le_append_step _ _ _
              _ ≤ (djangoI5 fs).length := length_le_append_step _ _ _
          · have : 1 ≤ (djangoI3 fs).length := by simp [djangoI3, h3]
            calc 1 ≤ (djangoI3 fs).length := this
              _ ≤ (djangoI4 fs).length := length_le_append_step _ _ _
              _ ≤ (djangoI5 fs).length := length_le_append_step _ _ _
        · have : 1 ≤ (djangoI4 fs).length := by simp [djangoI4, h4]
          calc 1 ≤ (djangoI4 fs).length := this
            _ ≤ (djangoI5 fs).length := length_le_append_step _ _ _
      · simp [djangoI5, h5']
    refine ⟨h5, fun hnil => ?_⟩
    have hnil' : djangoI5 fs = [] := hnil
    simp [hnil'] at hlen
  · intro hprim hcor
    have h1 : flaskC1 fs = .low := by simp [flaskC1, hprim]
    have h3 : flaskC3 fs = .low := step_low _ _ (step_low _ _ h1)
    have hlen : 1 ≤ (flaskI3 fs).length := by
      rcases Bool.or_eq_true_iff.mp hcor with h2 | h3'
      · have : 1 ≤ (flaskI2 fs).length := by simp [flaskI2, h2]
        calc 1 ≤ (flaskI2 fs).length := this
          _ ≤ (flaskI3 fs).length := length_le_append_step _ _ _
      · simp [flaskI3, h3']
    refine ⟨h3, fun hnil => ?_⟩
    have hnil' : flaskI3 fs = [] := hnil
    simp [hnil'] at hlen

/-- C1 witness: a filesystem with only a settings directory (corroborating
signal, no primary marker) keeps Django confidence at LOW with a non-empty
indicator list; similarly a templates directory for Flask. -/
theorem detect_confidence_monotone_escalation_witness :
    (djangoDetect (FS.mk (fun _ => false)
        (fun d => decide (d = "settings" ∨ d = "templates"))
        (fun _ => none))).confidence = .low ∧
    (djangoDetect (FS.mk (fun _ => false)
        (fun d => decide (d = "settings" ∨ d = "templates"))
        (fun _ => none))).indicators ≠ [] := by
  have h := detect_confidence_monotone_escalation
    (FS.mk (fun _ => false) (fun d => decide (d = "settings" ∨ d = "templates"))
      (fun _ => none))
  exact h.2.2.2.2.2.2.1 (by decide) (by decide)

/-! ## C2 -/

/-- C2: for both integrations, `detected` is true iff the indicator list is
non-empty, and a project tree on which no check matches (zero matching
evidence) yields `detected = false` and confidence LOW. -/
theorem detect_detected_iff_indicators (fs : FS) :
    ((djangoDetect fs).detected = true ↔ (djangoDetect fs).indicators ≠ []) ∧
    ((flaskDetect fs).detected = true ↔ (flaskDetect fs).indicators ≠ []) ∧
    (djangoSig1 fs = false → djangoSig2 fs = false → djangoSig3 fs = false →
      djangoSig4 fs = false → djangoSig5 fs = false →
      (djangoDetect fs).detected = false ∧ (djangoDetect fs).confidence = .low) ∧
    (flaskSig1 fs = false → flaskSig2 fs = false → flaskSig3 fs = false →
      (flaskDetect fs).detected = false ∧ (flaskDetect fs).confidence = .low) := by
  refine ⟨?_, ?_, ?_, ?_⟩
  · simp [djangoDetect, List.length_pos]
  · simp [flaskDetect, List.length_pos]
  · intro h1 h2 h3 h4 h5
    simp [djangoDetect, djangoI5, djangoI4, djangoI3, djangoI2, djangoI1,
      djangoC5, djangoC4, djangoC3, djangoC2, djangoC1, h1, h2, h3, h4, h5]
  · intro h1 h2 h3
    simp [flaskDetect, flaskI3, flaskI2, flaskI1, flaskC3, flaskC2, flaskC1,
      h1, h2, h3]

/-- C2 witness: the empty project tree has no evidence, so both detections
return `detected = false` with confidence LOW. -/
theorem detect_detected_iff_indicators_witness :
    (djangoDetect (FS.mk (fun _ => false) (fun _ => false) (fun _ => none))).detected
        = false ∧
    (djangoDetect (FS.mk (fun _ => false) (fun _ => false) (fun _ => none))).confidence
        = .low := by
  exact (detect_detected_iff_indicators
    (FS.mk (fun _ => false) (fun _ => false) (fun _ => none))).2.2.1
    rfl rfl rfl rfl rfl

/-! ## C3 -/

/-- A successful `re.search` is the match at the leftmost matching start
position: every earlier start position fails. -/
theorem searchVersion_first (name : List Char) :
    ∀ (s : List Char) (g : VersionGroups), searchVersion name s = some g →
      ∃ n, matchVersionAt name (s.drop n) = some g ∧
        ∀ m < n, matchVersionAt name (s.drop m) = none := by
  intro s
  induction s with
  | nil =>
    intro g h
    exact ⟨0, h, fun m hm => absurd hm (Nat.not_lt_zero m)⟩
  | cons c rest ih =>
    intro g h
    rw [searchVersion] at h
    cases hm : matchVersionAt name (c :: rest) with
    | some r =>
      rw [hm] at h
      exact ⟨0, by simpa using hm.trans (congrArg some (Option.some.inj h)),
        fun m hmm => absurd hmm (Nat.not_lt_zero m)⟩
    | none =>
      rw [hm] at h
      obtain ⟨n, hn, hall⟩ := ih g h
      refine ⟨n + 1, by simpa using hn, fun m hmm => ?_⟩
      cases m with
      | zero => simpa using hm
      | succ k => simpa using hall k (Nat.lt_of_succ_lt_succ hmm)

/-- If no start position up to the end of the text matches, `re.search`
returns no match. -/
theorem searchVersion_none (name : List Char) :
    ∀ s : List Char, (∀ n ≤ s.length, matchVersionAt name (s.drop n) = none) →
      searchVersion name s = none := by
  intro s
  induction s with
  | nil => intro h; simpa using h 0 (Nat.le_refl 0)
  | cons c rest ih =>
    intro h
    rw [searchVersion]
    have h0 : matchVersionAt name (c :: rest) = none := by simpa using h 0 (Nat.zero_le _)
    rw [h0]
    exact ih fun n hn => by simpa using h (n + 1) (Nat.succ_le_succ hn)

/-- C3: version extraction normalizes the first match of
`Django[>=<~!]*(\d+)(?:\.(\d+))?(?:\.(\d+))?` to `major.minor.patch` with
`0` substituted for omitted groups, returns the stated values on the
spec's examples, and returns absent — not an error — when no start
position of the text matches. -/
theorem django_version_extraction :
    extract_django_version_from_requirements "Django==4.2.0" = some "4.2.0" ∧
    extract_django_version_from_requirements "Django>=4.0" = some "4.0.0" ∧
    extract_django_version_from_requirements "pillow==9.0\nrequests==2.28.0" = none ∧
    (∀ (content : String) (g : VersionGroups),
      searchVersion "Django".data content.data = some g →
      extract_django_version_from_requirements content
          = some (g.major ++ "." ++ g.minor.getD "0" ++ "." ++ g.patch.getD "0") ∧
      ∃ n, matchVersionAt "Django".data (content.data.drop n) = some g ∧
        ∀ m < n, matchVersionAt "Django".data (content.data.drop m) = none) ∧
    (∀ content : String,
      (∀ n ≤ content.data.length,
        matchVersionAt "Django".data (content.data.drop n) = none) →
      extract_django_version_from_requirements content = none) := by
  refine ⟨by decide, by decide, by decide, ?_, ?_⟩
  · intro content g h
    refine ⟨?_, searchVersion_first _ _ g h⟩
    simp [extract_django_version_from_requirements, h, formatVersion]
  · intro content h
    simp [extract_django_version_from_requirements, searchVersion_none _ _ h]

/-- C3 witness: the first-match clause applied to `"Django==4.2.0"` with
its concrete match groups, and the no-match clause applied to `"x"`. -/
theorem django_version_extraction_witness :
    (extract_django_version_from_requirements "Django==4.2.0"
        = some ("4" ++ "." ++ (some "2").getD "0" ++ "." ++ (some "0").getD "0") ∧
      ∃ n, matchVersionAt "Django".data ("Django==4.2.0".data.drop n)
            = some ⟨"4", some "2", some "0"⟩ ∧
        ∀ m < n, matchVersionAt "Django".data ("Django==4.2.0".data.drop m) = none) ∧
    extract_django_version_from_requirements "x" = none := by
  constructor
  · exact django_version_extraction.2.2.2.1 "Django==4.2.0"
      ⟨"4", some "2", some "0"⟩ (by decide)
  · exact django_version_extraction.2.2.2.2 "x" (by decide)

/-! ## C4 -/

/-- A project tree whose requirements.txt is exactly `Flask==2.3.0`
alongside an `app.py`: the constraint is parsable (the generic extractor
instantiated at "Flask" yields "2.3.0") and Flask detection fires on the
manifest, yet the returned version is absent. -/
def flaskVersionFS : FS :=
  { fileExists := fun p => decide (p = "app.py") || decide (p = "requirements.txt")
    dirExists := fun _ => false
    readFile := fun p => if p = "requirements.txt" then some "Flask==2.3.0" else none }

/-- C4 counterexample: `FlaskIntegration.detect` on a tree whose
requirements.txt holds the parsable constraint `Flask==2.3.0` detects the
framework (the manifest indicator is recorded) but returns `version = None`,
not `"2.3.0"`. -/
theorem flask_version_never_extracted :
    (searchVersion "Flask".data "Flask==2.3.0".data).map formatVersion = some "2.3.0" ∧
    (flaskDetect flaskVersionFS).detected = true ∧
    (flaskDetect flaskVersionFS).indicators =
      ["app.py or application.py", "requirements.txt: Flask"] ∧
    (flaskDetect flaskVersionFS).version ≠ some "2.3.0" ∧
    (flaskDetect flaskVersionFS).version = none := by decide

/-- C4 amended: only the Django integration extracts a version, and only
from requirements.txt: when the requirements check fires (file present,
readable, token found) `detect().version` is the extractor's result on the
file's content; otherwise — and always for Flask, whose `detect` hard-codes
`version: None` — the version field is absent. -/
theorem detect_version_amended (fs : FS) (content : String) :
    (flaskDetect fs).version = none ∧
    (djangoSig4 fs = true → fs.readFile "requirements.txt" = some content →
      (djangoDetect fs).version = extract_django_version_from_requirements content) ∧
    (djangoSig4 fs = false → (djangoDetect fs).version = none) := by
  refine ⟨rfl, ?_, ?_⟩
  · intro hsig hread
    show djangoV4 fs = _
    simp [djangoV4, hsig, hread]
  · intro hsig
    show djangoV4 fs = none
    simp [djangoV4, hsig]

/-- C4 amended witness: a tree whose requirements.txt is `Django==4.2.0`
makes the Django requirements check fire and yields version `"4.2.0"`. -/
theorem detect_version_amended_witness :
    (flaskDetect (FS.mk (fun p => decide (p = "requirements.txt")) (fun _ => false)
        (fun p => if p = "requirements.txt" then some "Django==4.2.0" else none))).version
      = none ∧
    (djangoDetect (FS.mk (fun p => decide (p = "requirements.txt")) (fun _ => false)
        (fun p => if p = "requirements.txt" then some "Django==4.2.0" else none))).version
      = extract_django_version_from_requirements "Django==4.2.0" := by
  have h := detect_version_amended
    (FS.mk (fun p => decide (p = "requirements.txt")) (fun _ => false)
      (fun p => if p = "requirements.txt" then some "Django==4.2.0" else none))
    "Django==4.2.0"
  exact ⟨h.1, h.2.1 (by decide) (by decide)⟩

/-! ## C5 -/

/-- C5: `generate_service_worker_config` is a pure function of the
integration's static identity — for either framework, two calls with any
two filesystem states and project paths return structurally identical
configurations (same ordered rule list, same `skip_waiting` /
`clients_claim` / `navigation_preload`). -/
theorem generate_sw_config_pure (fs₁ fs₂ : FS) (p₁ p₂ : String) :
    django_generate_service_worker_config fs₁ p₁
        = django_generate_service_worker_config fs₂ p₂ ∧
    flask_generate_service_worker_config fs₁ p₁
        = flask_generate_service_worker_config fs₂ p₂ :=
  ⟨rfl, rfl⟩

/-! ## C6 -/

/-- A trailing `**` matches any remaining path text. -/
theorem globMatch_doubleStar (s : List Char) : globMatch ['*', '*'] s = true := by
  have hdef : globMatch ['*', '*'] s
      = (List.range (s.length + 1)).any fun n => globMatch [] (s.drop n) := rfl
  rw [hdef, List.any_eq_true]
  exact ⟨s.length, List.mem_range.mpr (Nat.lt_succ_self _),
    by simp [globMatch, List.drop_length]⟩

/-- Unfolding a non-star pattern character against the empty path. -/
theorem globMatch_lit_nil (c : Char) (hc : c ≠ '*') (p : List Char) :
    globMatch (c :: p) [] = false := by
  rw [globMatch.eq_def]
  simp [hc]

/-- Unfolding a non-star pattern character against a non-empty path. -/
theorem globMatch_lit_cons (c : Char) (hc : c ≠ '*') (p : List Char) (d : Char)
    (s' : List Char) :
    globMatch (c :: p) (d :: s') = (decide (c = d) && globMatch p s') := by
  rw [globMatch.eq_def]
  simp [hc]

/-- A star-free literal followed by `**` matches exactly the paths having
the literal as a prefix. -/
theorem globMatch_litPrefix : ∀ lit : List Char, (∀ c ∈ lit, c ≠ '*') →
    ∀ s : List Char, globMatch (lit ++ ['*', '*']) s = isPrefixL lit s := by
  intro lit
  induction lit with
  | nil => intro _ s; simp [globMatch_doubleStar, isPrefixL]
  | cons c cs ih =>
    intro h s
    have hc : c ≠ '*' := h c (List.mem_cons_self c cs)
    have ih' := ih fun x hx => h x (List.mem_cons_of_mem c hx)
    cases s with
    | nil => simp [globMatch_lit_nil c hc, isPrefixL]
    | cons d s' => simp [globMatch_lit_cons c hc, isPrefixL, ih' s']

/-- `isPrefixL` agrees with the prefix relation. -/
theorem isPrefixL_iff : ∀ a b : List Char, isPrefixL a b = true ↔ ∃ t, b = a ++ t := by
  intro a
  induction a with
  | nil => intro b; simp [isPrefixL]
  | cons x xs ih =>
    intro b
    cases b with
    | nil => simp [isPrefixL]
    | cons y ys =>
      simp only [isPrefixL, Bool.and_eq_true, decide_eq_true_eq, ih ys,
        List.cons_append, List.cons.injEq]
      constructor
      · rintro ⟨rfl, t, rfl⟩
        exact ⟨t, rfl, rfl⟩
      · rintro ⟨t, rfl, rfl⟩
        exact ⟨rfl, t, rfl⟩

/-- C6: under first-match semantics over the Django runtime-caching rule
sequence, every request path matching `/admin/**` falls through the static,
media and API rules (their glob patterns cannot match a path under
`/admin/`) and resolves to the `NetworkOnly` rule. -/
theorem django_admin_networkonly_first_match (fs : FS) (pp : String) (path : String)
    (h : globMatch "/admin/**".data path.data = true) :
    globMatch "/static/**".data path.data = false ∧
    globMatch "/media/**".data path.data = false ∧
    globMatch "/api/**".data path.data = false ∧
    (firstMatchingRule
        (django_generate_service_worker_config fs pp).runtime_caching path).map
      (fun r => r.handler) = some "NetworkOnly" := by
  have hsplit : "/admin/**".data = "/admin/".data ++ ['*', '*'] := rfl
  have hstar : ∀ c ∈ "/admin/".data, c ≠ '*' := by decide
  rw [hsplit, globMatch_litPrefix _ hstar, isPrefixL_iff] at h
  obtain ⟨t, ht⟩ := h
  have hpath : path.data = '/' :: 'a' :: 'd' :: 'm' :: 'i' :: 'n' :: '/' :: t := ht
  have h1 : globMatch "/static/**".data path.data = false := by rw [hpath]; rfl
  have h2 : globMatch "/media/**".data path.data = false := by rw [hpath]; rfl
  have h3 : globMatch "/api/**".data path.data = false := by rw [hpath]; rfl
  have h4 : globMatch "/admin/**".data path.data = true := by
    rw [hsplit, globMatch_litPrefix _ hstar, isPrefixL_iff]
    exact ⟨t, ht⟩
  refine ⟨h1, h2, h3, ?_⟩
  simp [firstMatchingRule, django_generate_service_worker_config, List.find?,
    h1, h2, h3, h4]

/-- The empty project tree (no files, no directories, unreadable). -/
def emptyFS : FS :=
  { fileExists := fun _ => false, dirExists := fun _ => false, readFile := fun _ => none }

/-- C6 witness: the concrete admin path `/admin/login/` resolves to the
`NetworkOnly` rule. -/
theorem django_admin_networkonly_first_match_witness :
    globMatch "/static/**".data "/admin/login/".data = false ∧
    globMatch "/media/**".data "/admin/login/".data = false ∧
    globMatch "/api/**".data "/admin/login/".data = false ∧
    (firstMatchingRule
        (django_generate_service_worker_config emptyFS "/proj").runtime_caching
        "/admin/login/").map (fun r => r.handler) = some "NetworkOnly" :=
  django_admin_networkonly_first_match emptyFS "/proj" "/admin/login/" (by decide)

/-! ## C7 -/

/-- C7: for both integrations, the validation report satisfies
`is_valid = true` iff `errors` is empty, and validity is a function of
`errors` alone — trees producing the same error list (whatever their
warnings and suggestions) get the same validity. -/
theorem validate_isValid_iff_errors_empty (fs fs' : FS) :
    ((djangoValidateSetup fs).isValid = true ↔ (djangoValidateSetup fs).errors = []) ∧
    ((flaskValidateSetup fs).isValid = true ↔ (flaskValidateSetup fs).errors = []) ∧
    ((djangoValidateSetup fs).errors = (djangoValidateSetup fs').errors →
      (djangoValidateSetup fs).isValid = (djangoValidateSetup fs').isValid) ∧
    ((flaskValidateSetup fs).errors = (flaskValidateSetup fs').errors →
      (flaskValidateSetup fs).isValid = (flaskValidateSetup fs').isValid) := by
  have hd : ∀ g : FS, (djangoValidateSetup g).isValid = true
      ↔ (djangoValidateSetup g).errors = [] := by
    intro g
    simp only [djangoValidateSetup, decide_eq_true_eq]
    cases hse : g.fileExists "settings.py" <;> cases hsd : g.dirExists "settings" <;>
      simp
  have hf : ∀ g : FS, (flaskValidateSetup g).isValid = true
      ↔ (flaskValidateSetup g).errors = [] := by
    intro g
    simp [flaskValidateSetup]
  refine ⟨hd fs, hf fs, ?_, ?_⟩
  · intro herr
    have : ((djangoValidateSetup fs).isValid = true)
        ↔ ((djangoValidateSetup fs').isValid = true) := by
      rw [hd fs, hd fs', herr]
    cases hb : (djangoValidateSetup fs).isValid <;>
      cases hb' : (djangoValidateSetup fs').isValid <;> simp_all
  · intro herr
    have : ((flaskValidateSetup fs).isValid = true)
        ↔ ((flaskValidateSetup fs').isValid = true) := by
      rw [hf fs, hf fs', herr]
    cases hb : (flaskValidateSetup fs).isValid <;>
      cases hb' : (flaskValidateSetup fs').isValid <;> simp_all

/-- C7 witness: on the empty tree Django validation reports its structural
error and is invalid; the validity-depends-only-on-errors clause applied to
the empty tree against itself. -/
theorem validate_isValid_iff_errors_empty_witness :
    ((djangoValidateSetup emptyFS).isValid = false ∧
      (djangoValidateSetup emptyFS).errors ≠ []) ∧
    (djangoValidateSetup emptyFS).isValid = (djangoValidateSetup emptyFS).isValid := by
  have h := validate_isValid_iff_errors_empty emptyFS emptyFS
  refine ⟨?_, h.2.2.1 rfl⟩
  have h1 := h.1
  constructor
  · cases hb : (djangoValidateSetup emptyFS).isValid
    · rfl
    · exact absurd (h1.mp hb) (by decide)
  · intro hnil
    have : (djangoValidateSetup emptyFS).isValid = true := h1.mpr hnil
    exact absurd (h1.mp this) (by decide)

/-! ## C8 -/

/-- The same filesystem with one file-existence signal forced off:
the state in which a failed per-check read is equivalent to the checked
file being absent. -/
def FS.withFileAbsent (fs : FS) (p : String) : FS :=
  { fs with fileExists := fun q => if q = p then false else fs.fileExists q }

/-- C8: detection is total (it returns a result for every filesystem — the
embedding has no error outcome), and a read error on a dependency-manifest
file is swallowed locally: the run produces exactly the result it would
produce were that file absent, every other check still contributing.
Covers both manifest reads of Django detection and the one of Flask. -/
theorem detect_swallows_read_errors (fs : FS) :
    (fs.readFile "requirements.txt" = none →
      djangoDetect fs = djangoDetect (fs.withFileAbsent "requirements.txt") ∧
      flaskDetect fs = flaskDetect (fs.withFileAbsent "requirements.txt")) ∧
    (fs.readFile "pyproject.toml" = none →
      djangoDetect fs = djangoDetect (fs.withFileAbsent "pyproject.toml")) := by
  constructor
  · intro hread
    constructor
    · have e1 : djangoSig1 (fs.withFileAbsent "requirements.txt") = djangoSig1 fs := by
        simp [djangoSig1, FS.withFileAbsent]
      have e2 : djangoSig2 (fs.withFileAbsent "requirements.txt") = djangoSig2 fs := by
        simp [djangoSig2, FS.withFileAbsent]
      have e3 : djangoSig3 (fs.withFileAbsent "requirements.txt") = djangoSig3 fs := by
        simp [djangoSig3, FS.withFileAbsent]
      have e4 : djangoSig4 fs = false := by simp [djangoSig4, hread]
      have e4' : djangoSig4 (fs.withFileAbsent "requirements.txt") = false := by
        simp [djangoSig4, FS.withFileAbsent]
      have e5 : djangoSig5 (fs.withFileAbsent "requirements.txt") = djangoSig5 fs := by
        simp [djangoSig5, FS.withFileAbsent]
      simp [djangoDetect, djangoI5, djangoI4, djangoI3, djangoI2, djangoI1,
        djangoC5, djangoC4, djangoC3, djangoC2, djangoC1, djangoV4,
        e1, e2, e3, e4, e4', e5]
    · have e1 : flaskSig1 (fs.withFileAbsent "requirements.txt") = flaskSig1 fs := by
        simp [flaskSig1, FS.withFileAbsent]
      have e2 : flaskSig2 fs = false := by simp [flaskSig2, hread]
      have e2' : flaskSig2 (fs.withFileAbsent "requirements.txt") = false := by
        simp [flaskSig2, FS.withFileAbsent]
      have e3 : flaskSig3 (fs.withFileAbsent "requirements.txt") = flaskSig3 fs := by
        simp [flaskSig3, FS.withFileAbsent]
      simp [flaskDetect, flaskI3, flaskI2, flaskI1, flaskC3, flaskC2, flaskC1,
        e1, e2, e2', e3]
  · intro hread
    have e1 : djangoSig1 (fs.withFileAbsent "pyproject.toml") = djangoSig1 fs := by
      simp [djangoSig1, FS.withFileAbsent]
    have e2 : djangoSig2 (fs.withFileAbsent "pyproject.toml") = djangoSig2 fs := by
      simp [djangoSig2, FS.withFileAbsent]
    have e3 : djangoSig3 (fs.withFileAbsent "pyproject.toml") = djangoSig3 fs := by
      simp [djangoSig3, FS.withFileAbsent]
    have e4 : djangoSig4 (fs.withFileAbsent "pyproject.toml") = djangoSig4 fs := by
      simp [djangoSig4, FS.withFileAbsent]
    have e5 : djangoSig5 fs = false := by simp [djangoSig5, hread]
    have e5' : djangoSig5 (fs.withFileAbsent "pyproject.toml") = false := by
      simp [djangoSig5, FS.withFileAbsent]
    have ev : djangoV4 (fs.withFileAbsent "pyproject.toml") = djangoV4 fs := by
      simp [djangoV4, djangoSig4, FS.withFileAbsent]
    simp [djangoDetect, djangoI5, djangoI4, djangoI3, djangoI2, djangoI1,
      djangoC5, djangoC4, djangoC3, djangoC2, djangoC1,
      e1, e2, e3, e4, e5, e5', ev]

/-- C8 witness: a tree where manage.py and both manifest files exist but
every read raises — detection still returns, and equals detection with the
unreadable manifests absent. -/
theorem detect_swallows_read_errors_witness :
    djangoDetect (FS.mk
        (fun p => decide (p = "manage.py") || decide (p = "requirements.txt")
          || decide (p = "pyproject.toml"))
        (fun _ => false) (fun _ => none))
      = djangoDetect ((FS.mk
        (fun p => decide (p = "manage.py") || decide (p = "requirements.txt")
          || decide (p = "pyproject.toml"))
        (fun _ => false) (fun _ => none)).withFileAbsent "requirements.txt") := by
  exact (detect_swallows_read_errors (FS.mk
      (fun p => decide (p = "manage.py") || decide (p = "requirements.txt")
        || decide (p = "pyproject.toml"))
      (fun _ => false) (fun _ => none))).1 rfl |>.1

/-! ## C9 -/

/-- C9: every transport failure (unreachable service, timeout, or other
HTTP failure, including non-2xx statuses and undecodable bodies) surfaced
during the client's scan / generate / validate operation reaches the caller
wrapped in the phase-specific exception — `ScanException`,
`GenerationException`, `ValidationException` respectively — and those three
kinds are pairwise distinct, so the failing phase is identifiable. -/
theorem transport_failures_phase_wrapped {ρ σ : Type} (parse : ρ → Except String σ)
    (timeout : Nat) (o : SessionOutcome ρ) (h : o.isTransportFailure = true) :
    (∃ m, clientScan parse timeout o = .error (.scanException m)) ∧
    (∃ m, clientGenerate parse timeout o = .error (.generationException m)) ∧
    (∃ m, clientValidate parse timeout o = .error (.validationException m)) ∧
    (∀ m m', PwaException.scanException m ≠ PwaException.generationException m') ∧
    (∀ m m', PwaException.scanException m ≠ PwaException.validationException m') ∧
    (∀ m m', PwaException.generationException m ≠ PwaException.validationException m') := by
  refine ⟨?_, ?_, ?_, by simp, by simp, by simp⟩ <;>
  · cases o with
    | response status body json? =>
      by_cases hs : 400 ≤ status ∧ status < 600
      · simp [clientScan, clientGenerate, clientValidate, httpPost, hs]
      · cases json? with
        | some j =>
          simp [SessionOutcome.isTransportFailure, hs] at h
        | none =>
          simp [clientScan, clientGenerate, clientValidate, httpPost, hs]
    | timeoutErr m => simp [clientScan, clientGenerate, clientValidate, httpPost]
    | connectionErr m => simp [clientScan, clientGenerate, clientValidate, httpPost]
    | otherErr m => simp [clientScan, clientGenerate, clientValidate, httpPost]

/-- C9 witness: a timed-out transport on all three operations, with a
trivial response parser. -/
theorem transport_failures_phase_wrapped_witness :
    (∃ m, clientScan (fun r : Unit => Except.ok r) 30 (.timeoutErr "t")
        = .error (.scanException m)) ∧
    (∃ m, clientGenerate (fun r : Unit => Except.ok r) 30 (.timeoutErr "t")
        = .error (.generationException m)) ∧
    (∃ m, clientValidate (fun r : Unit => Except.ok r) 30 (.timeoutErr "t")
        = .error (.validationException m)) := by
  have h := transport_failures_phase_wrapped (fun r : Unit => Except.ok r) 30
    (.timeoutErr "t") (by decide)
  exact ⟨h.1, h.2.1, h.2.2.1⟩

/-! ## C10 -/

/-- C10: Flask validation can never fail — its `errors` list is empty, thus
`is_valid` is true, for every project tree; a missing application entry
file (neither app.py nor application.py) surfaces only as the expected
warning. -/
theorem flask_validate_always_valid (fs : FS) :
    (flaskValidateSetup fs).errors = [] ∧
    (flaskValidateSetup fs).isValid = true ∧
    (fs.fileExists "app.py" = false → fs.fileExists "application.py" = false →
      (flaskValidateSetup fs).warnings = ["app.py or application.py not found"]) := by
  refine ⟨rfl, rfl, ?_⟩
  intro h1 h2
  simp [flaskValidateSetup, h1, h2]

/-- C10 witness: the empty project tree — no entry file, yet validation
passes with only the warning. -/
theorem flask_validate_always_valid_witness :
    (flaskValidateSetup emptyFS).errors = [] ∧
    (flaskValidateSetup emptyFS).isValid = true ∧
    (flaskValidateSetup emptyFS).warnings = ["app.py or application.py not found"] := by
  have h := flask_validate_always_valid emptyFS
  exact ⟨h.1, h.2.1, h.2.2 rfl rfl⟩

end UniversalPwa
